import Mathlib

/-
Shallow embedding of the research-bot paper pipeline (src/bot.py):
the PubMed searcher (search_papers, _fetch_paper_details,
_extract_paper_info), the PDF acquirer (_try_download_paper,
_download_pdf_direct), the download command loop, and the
papers_metadata.json persistence, together with theorems settling the
spec claims about them.

Network interactions are modelled by environments mapping requests to
responses; Python exceptions become explicit failure constructors that
the embedded control flow handles exactly where the source's
try/except blocks do; Python truthiness on optional values is modelled
explicitly (None and empty strings and the integer 0 are falsy).
-/

namespace ResearchBot

/-- Python truthiness of an optional string: falsy when absent (None)
or empty. Models checks such as `paper.get('doi')` and
`if pdf_url:` in src/bot.py. -/
def strTruthy : Option String → Bool
  | none => false
  | some s => s ≠ ""

/-- Python truthiness of an optional int: falsy when absent (None) or
zero. Models `if start_year and end_year` in search_papers. -/
def intTruthy : Option Int → Bool
  | none => false
  | some n => n ≠ 0

/-- Python `a or b` for an optional string with a default, as in
`paper['pmid'] or 'unknown'`. -/
def strOr (o : Option String) (d : String) : String :=
  match o with
  | none => d
  | some s => if s = "" then d else s

/-- Normalized paper record, the dict built by
PubMedSearcher._extract_paper_info (src/bot.py lines 170-178). -/
structure PaperRecord where
  title : String
  authors : List String
  abstract : String
  doi : Option String
  pmid : Option String
  year : String
  pdf_url : Option String
deriving Repr, DecidableEq

/-! ## Search-term construction (src/bot.py lines 69-72)

`search_term = keywords`; then
`if start_year and end_year: search_term += f" AND {start_year}[PDAT]:{end_year}[PDAT]"`. -/

/-- The date-range clause appended to the keyword expression when both
year bounds are truthy. -/
def dateRangeClause (startYear endYear : Int) : String :=
  " AND " ++ toString startYear ++ "[PDAT]:" ++ toString endYear ++ "[PDAT]"

/-- The search expression sent to the esearch endpoint
(src/bot.py lines 69-72). -/
def buildSearchTerm (keywords : String) (startYear endYear : Option Int) : String :=
  if intTruthy startYear && intTruthy endYear then
    keywords ++ dateRangeClause (startYear.getD 0) (endYear.getD 0)
  else
    keywords

/-! ## Literature searcher (src/bot.py lines 57-182)

Network phases are modelled by an environment. A request either raises
(connection error / timeout, `netError`) or yields a response with a
status and a body; an XML body either fails to parse (`ET.fromstring`
raises, `malformed`) or yields the structured data the code reads out
of the element tree. -/

/-- Outcome of an HTTP GET in the searcher: a raised exception, or a
response with a status code and a body. -/
inductive NetResult (β : Type) where
  | netError
  | resp (status : Nat) (body : β)
deriving Repr, DecidableEq

/-- Body of the esearch (phase 1) response: XML parse failure, or the
list of Id element texts (PMIDs). -/
inductive SearchBody where
  | malformed
  | parsed (ids : List String)
deriving Repr, DecidableEq

/-- One Author element: optional LastName and ForeName texts. -/
structure AuthorXml where
  lastName : Option String
  foreName : Option String
deriving Repr, DecidableEq

/-- One entry of the efetch batch response: a PubmedArticle element
whose fields _extract_paper_info reads, or an entry on which the
extraction raises (`bad`). -/
inductive ArticleXml where
  | good (title : Option String) (authors : List AuthorXml)
      (abstract : Option String) (doi : Option String)
      (pmid : Option String) (year : Option String)
  | bad
deriving Repr, DecidableEq

/-- Body of the efetch (phase 2) response: XML parse failure, or the
list of PubmedArticle entries. -/
inductive FetchBody where
  | malformed
  | parsed (articles : List ArticleXml)
deriving Repr, DecidableEq

/-- Upstream environment for the searcher: phase 1 keyed by search
term and retmax, phase 2 keyed by the batched PMID list. -/
structure SearchEnv where
  phase1 : String → Nat → NetResult SearchBody
  phase2 : List String → NetResult FetchBody

/-- Author formatting in _extract_paper_info (src/bot.py lines
144-152): skipped without a LastName, "First Last" when ForeName is
also present. -/
def authorName (a : AuthorXml) : Option String :=
  match a.lastName with
  | none => none
  | some ln =>
    match a.foreName with
    | none => some ln
    | some fn => some (fn ++ " " ++ ln)

/-- Candidate PMC PDF URL derived from a PMID (src/bot.py line 177 and
line 451). -/
def pmcPdfUrl (pmid : String) : String :=
  "https://www.ncbi.nlm.nih.gov/pmc/articles/PMC" ++ pmid ++ "/pdf/"

/-- PubMedSearcher._extract_paper_info (src/bot.py lines 136-182):
builds the paper dict with defaults, returning none when extraction
raises. -/
def extractPaperInfo : ArticleXml → Option PaperRecord
  | .bad => none
  | .good title authors abstract doi pmid year =>
      some {
        title := title.getD "No title"
        authors := authors.filterMap authorName
        abstract := abstract.getD "No abstract available"
        doi := doi
        pmid := pmid
        year := year.getD "Unknown"
        pdf_url := if strTruthy pmid then some (pmcPdfUrl (pmid.getD "")) else none
      }

/-- PubMedSearcher._fetch_paper_details (src/bot.py lines 108-134):
one batched efetch request; the status code is never inspected; any
exception yields []; entries whose extraction fails are skipped. -/
def fetchPaperDetails (env : SearchEnv) (pmids : List String) : List PaperRecord :=
  match env.phase2 pmids with
  | .netError => []
  | .resp _ body =>
    match body with
    | .malformed => []
    | .parsed articles => articles.filterMap extractPaperInfo

/-- PubMedSearcher.search_papers (src/bot.py lines 65-106): build the
search term, resolve PMIDs (non-200 or empty result yields []), then
fetch details; any exception is caught and yields []. -/
def searchPapers (env : SearchEnv) (keywords : String) (startYear endYear : Option Int)
    (maxResults : Nat) : List PaperRecord :=
  match env.phase1 (buildSearchTerm keywords startYear endYear) maxResults with
  | .netError => []
  | .resp status body =>
    if status ≠ 200 then []
    else
      match body with
      | .malformed => []
      | .parsed pmids =>
        if pmids = [] then []
        else fetchPaperDetails env pmids

/-- Environment exhibiting that phase 2 never checks the HTTP status:
the detail fetch answers 500 with a well-formed body. -/
def envPhase2Status : SearchEnv where
  phase1 := fun _ _ => .resp 200 (.parsed ["1"])
  phase2 := fun _ => .resp 500 (.parsed [.good (some "T") [] none none (some "1") none])

/-! ## PDF acquirer (src/bot.py lines 428-490)

The downloader's environment maps a URL to the outcome of a GET. A
response records the status, whether the content-type contains
'application/pdf' or 'application/json', whether streaming the body to
disk completes (false models an exception midway through
iter_chunked, after the target file has been opened for writing), and
the outcome of response.json() (none models a raised parse error).
The file system is the list of file names present in the download
directory; the third component of each result is the list of URLs a
GET was issued against. -/

/-- Unpaywall best_oa_location object: optional url_for_pdf field. -/
structure OaLocation where
  url_for_pdf : Option String
deriving Repr, DecidableEq

/-- Unpaywall API JSON document: is_oa flag (truthiness of the field)
and optional best_oa_location (absent or falsy collapses to none). -/
structure UnpaywallData where
  is_oa : Bool
  best_oa_location : Option OaLocation
deriving Repr, DecidableEq

/-- An HTTP response as the downloader observes it. -/
structure DlResp where
  status : Nat
  ctPdf : Bool
  ctJson : Bool
  streamOk : Bool
  jsonParse : Option UnpaywallData
deriving Repr, DecidableEq

/-- Outcome of a downloader GET: raised exception or a response. -/
inductive DlResult where
  | netError
  | resp (r : DlResp)
deriving Repr, DecidableEq

/-- Downloader environment: deterministic response per URL. -/
structure DlEnv where
  net : String → DlResult

/-- Unpaywall lookup URL keyed by DOI (src/bot.py line 447). -/
def unpaywallUrl (doi : String) : String :=
  "https://api.unpaywall.org/v2/" ++ doi ++ "?email=research@example.com"

/-- Python word character for str patterns: letter, digit or
underscore, as matched by backslash-w in the regex at src/bot.py line
434 (ASCII fragment). -/
def isWordChar (c : Char) : Bool :=
  c.isAlpha || c.isDigit || c = '_'

/-- Characters the regex at src/bot.py line 434 keeps in the title:
the set complementing [^\w\s-]. -/
def keepTitleChar (c : Char) : Bool :=
  isWordChar c || c.isWhitespace || c = '-'

/-- re.sub(r'[^\w\s-]', '', title)[:50] (src/bot.py line 434). -/
def safeTitle (title : String) : String :=
  String.mk ((title.data.filter keepTitleChar).take 50)

/-- Target file name for a paper (src/bot.py lines 434-435):
f"{paper['pmid'] or 'unknown'}_{safe_title}.pdf". -/
def deriveFilename (p : PaperRecord) : String :=
  strOr p.pmid "unknown" ++ "_" ++ safeTitle p.title ++ ".pdf"

/-- Record that a path now exists (open(filepath,'wb') creates or
truncates it; the set of names gains at most the one name). -/
def addFile (fs : List String) (f : String) : List String :=
  if f ∈ fs then fs else f :: fs

/-- The PDF URL the Unpaywall JSON leads to, when the code's chain
data.get('is_oa') and data.get('best_oa_location') and
best.get('url_for_pdf') is truthy (src/bot.py lines 467-470); none
when response.json() raised or the chain is falsy. -/
def jsonPdfUrl : Option UnpaywallData → Option String
  | none => none
  | some d =>
    if d.is_oa then
      match d.best_oa_location with
      | none => none
      | some loc =>
        match loc.url_for_pdf with
        | none => none
        | some u => if u = "" then none else some u
    else none

/-- _download_pdf_direct (src/bot.py lines 478-490): GET the URL; on
status 200 open the target file and stream (a mid-stream exception is
caught and leaves the partially written file); any other outcome is
failure with no write. Returns (success, files, requests). -/
def downloadPdfDirect (env : DlEnv) (url : String) (filepath : String)
    (fs : List String) : Bool × List String × List String :=
  match env.net url with
  | .netError => (false, fs, [url])
  | .resp r =>
    if r.status = 200 then
      if r.streamOk then (true, addFile fs filepath, [url])
      else (false, addFile fs filepath, [url])
    else (false, fs, [url])

/-- Prefix one issued request onto a downloader result. -/
def prependReq (u : String) (t : Bool × List String × List String) :
    Bool × List String × List String :=
  (t.1, t.2.1, u :: t.2.2)

/-- The candidate loop of _try_download_paper (src/bot.py lines
453-476). Per URL: an exception (connection error, timeout, JSON
parse error, mid-stream failure) is caught and the loop continues; a
200 PDF response streams to the target file and returns success; a
200 JSON response whose Unpaywall chain yields a PDF URL returns the
result of _download_pdf_direct on that URL immediately; everything
else falls through to the next URL. -/
def tryUrls (env : DlEnv) (filepath : String) :
    List String → List String → Bool × List String × List String
  | fs, [] => (false, fs, [])
  | fs, url :: rest =>
    match env.net url with
    | .netError => prependReq url (tryUrls env filepath fs rest)
    | .resp r =>
      if r.status = 200 then
        if r.ctPdf then
          if r.streamOk then (true, addFile fs filepath, [url])
          else prependReq url (tryUrls env filepath (addFile fs filepath) rest)
        else if r.ctJson then
          match jsonPdfUrl r.jsonParse with
          | some u => prependReq url (downloadPdfDirect env u filepath fs)
          | none => prependReq url (tryUrls env filepath fs rest)
        else prependReq url (tryUrls env filepath fs rest)
      else prependReq url (tryUrls env filepath fs rest)

/-- Candidate source URLs in order (src/bot.py lines 443-451):
Unpaywall keyed by DOI when truthy, then PMC keyed by PMID when
truthy. -/
def candidateUrls (p : PaperRecord) : List String :=
  (if strTruthy p.doi then [unpaywallUrl (p.doi.getD "")] else []) ++
    (if strTruthy p.pmid then [pmcPdfUrl (p.pmid.getD "")] else [])

/-- _try_download_paper (src/bot.py lines 428-476): short-circuit
success when the target file already exists, otherwise run the
candidate loop. -/
def tryDownloadPaper (env : DlEnv) (paper : PaperRecord) (fs : List String) :
    Bool × List String × List String :=
  if deriveFilename paper ∈ fs then (true, fs, [])
  else tryUrls env (deriveFilename paper) fs (candidateUrls paper)

/-- A GET outcome on which the candidate loop falls through to the
next URL with no side effect: exception, non-200 status, a 200
response that is neither PDF nor JSON, or a 200 JSON response whose
Unpaywall chain yields no PDF URL. -/
def candidateSkips (g : DlResult) : Bool :=
  match g with
  | .netError => true
  | .resp r =>
    if r.status = 200 then
      if r.ctPdf then false
      else if r.ctJson then (jsonPdfUrl r.jsonParse).isNone
      else true
    else true

/-- The PDF URL a GET outcome redirects the loop to through the
Unpaywall JSON branch, if any. -/
def respJsonPdf (g : DlResult) : Option String :=
  match g with
  | .netError => none
  | .resp r =>
    if r.status = 200 ∧ r.ctPdf = false ∧ r.ctJson = true then jsonPdfUrl r.jsonParse
    else none

/-- The per-paper loop of the download command (src/bot.py lines
383-393): a paper with a truthy doi goes through _try_download_paper
and is tallied by its outcome; any other paper is tallied as failed
with no attempt. Returns (downloaded, failed, files, requests). -/
def downloadProjectLoop (env : DlEnv) :
    List String → List PaperRecord → Nat × Nat × List String × List String
  | fs, [] => (0, 0, fs, [])
  | fs, p :: rest =>
    if strTruthy p.doi then
      match tryDownloadPaper env p fs with
      | (s, fs1, reqs) =>
        match downloadProjectLoop env fs1 rest with
        | (d, f, fs2, reqs2) =>
          (if s then d + 1 else d, if s then f else f + 1, fs2, reqs ++ reqs2)
    else
      match downloadProjectLoop env fs rest with
      | (d, f, fs2, reqs2) => (d, f + 1, fs2, reqs2)

/-! ## Results persistence (src/bot.py lines 307-309 and 369-371)

The search command dumps the paper dicts to papers_metadata.json with
json.dump, overwriting the file; the download command reads it back
with json.load. The JSON documents and the per-project file system
are modelled explicitly. -/

/-- JSON values as json.dump/json.load exchange them here. -/
inductive Json where
  | null
  | str (s : String)
  | arr (elems : List Json)
  | obj (fields : List (String × Json))

/-- JSON encoding of an optional string (None becomes null). -/
def optStrJson : Option String → Json
  | none => .null
  | some s => .str s

/-- The JSON object json.dump writes for one paper dict. -/
def encodePaper (p : PaperRecord) : Json :=
  .obj [("title", .str p.title), ("authors", .arr (p.authors.map Json.str)),
    ("abstract", .str p.abstract), ("doi", optStrJson p.doi),
    ("pmid", optStrJson p.pmid), ("year", .str p.year),
    ("pdf_url", optStrJson p.pdf_url)]

/-- Field lookup in a JSON object. -/
def jLookup (fields : List (String × Json)) (key : String) : Option Json :=
  match fields.find? (fun e => e.1 = key) with
  | none => none
  | some e => some e.2

/-- Read a JSON value back as a string. -/
def asStr : Json → Option String
  | .str s => some s
  | _ => none

/-- Read a JSON value back as an optional string. -/
def asOptStr : Json → Option (Option String)
  | .null => some none
  | .str s => some (some s)
  | _ => none

/-- Traverse a list with a fallible reader, failing as soon as one
element fails. -/
def optionMapM {α β : Type} (f : α → Option β) : List α → Option (List β)
  | [] => some []
  | x :: xs =>
    match f x with
    | none => none
    | some y =>
      match optionMapM f xs with
      | none => none
      | some ys => some (y :: ys)

/-- Read a JSON value back as a list of strings. -/
def asStrList : Json → Option (List String)
  | .arr xs => optionMapM asStr xs
  | _ => none

/-- Recover the paper dict json.load yields from one JSON object. -/
def decodePaper : Json → Option PaperRecord
  | .obj fields => do
      let t ← jLookup fields "title" >>= asStr
      let as ← jLookup fields "authors" >>= asStrList
      let ab ← jLookup fields "abstract" >>= asStr
      let d ← jLookup fields "doi" >>= asOptStr
      let pm ← jLookup fields "pmid" >>= asOptStr
      let y ← jLookup fields "year" >>= asStr
      let u ← jLookup fields "pdf_url" >>= asOptStr
      pure ⟨t, as, ab, d, pm, y, u⟩
  | _ => none

/-- Saving results for a project (src/bot.py lines 307-309): write
papers_metadata.json, overwriting any prior document. The store maps
a project id to its results document. -/
def saveResults (store : List (String × Json)) (projectId : String)
    (papers : List PaperRecord) : List (String × Json) :=
  (projectId, .arr (papers.map encodePaper)) ::
    store.filter (fun e => e.1 ≠ projectId)

/-- Loading results for a project (src/bot.py lines 369-371): read
papers_metadata.json back; none models the NotFound condition or a
document of the wrong shape. -/
def loadResults (store : List (String × Json)) (projectId : String) :
    Option (List PaperRecord) :=
  match store.find? (fun e => e.1 = projectId) with
  | none => none
  | some e =>
    match e.2 with
    | .arr xs => optionMapM decodePaper xs
    | _ => none

/-! ## Spec-side filename definitions and concrete scenarios -/

/-- Modelled from the spec claim wording: the title with every
character outside letters, digits, whitespace, hyphen removed,
truncated to 50 characters, prefixed by the externalId (or the
literal "unknown" when it is absent) and an underscore, suffixed
".pdf". -/
def specFilenameClaim (p : PaperRecord) : String :=
  (match p.pmid with
    | none => "unknown"
    | some s => s) ++ "_" ++
    String.mk ((p.title.data.filter
      (fun c => c.isAlpha || c.isDigit || c.isWhitespace || c = '-')).take 50) ++ ".pdf"

/-- Modelled from the spec claim as amended: underscores are also
kept (the source keeps every word character), and an absent or empty
externalId yields the "unknown" placeholder. -/
def specFilenameAmended (p : PaperRecord) : String :=
  strOr p.pmid "unknown" ++ "_" ++
    String.mk ((p.title.data.filter
      (fun c => c.isAlpha || c.isDigit || c = '_' || c.isWhitespace || c = '-')).take 50) ++
    ".pdf"

/-- A paper with both identifiers present. -/
def paperBoth : PaperRecord :=
  { title := "T", authors := [], abstract := "A", doi := some "10.1/x",
    pmid := some "77", year := "2020", pdf_url := none }

/-- A paper with only a PMID. -/
def paperPmidOnly : PaperRecord :=
  { title := "T", authors := [], abstract := "A", doi := none,
    pmid := some "9", year := "2020", pdf_url := none }

/-- A paper with neither DOI nor PMID. -/
def paperNoIds : PaperRecord :=
  { title := "T", authors := [], abstract := "A", doi := none,
    pmid := none, year := "2020", pdf_url := none }

/-- A paper whose title contains an underscore. -/
def paperUnderscore : PaperRecord :=
  { title := "a_b", authors := [], abstract := "A", doi := none,
    pmid := some "1", year := "2020", pdf_url := none }

/-- A paper whose PMID is the empty string. -/
def paperEmptyPmid : PaperRecord :=
  { title := "t", authors := [], abstract := "A", doi := none,
    pmid := some "", year := "2020", pdf_url := none }

/-- Downloader environment that answers every GET with a PDF that
streams cleanly. -/
def envAllPdf : DlEnv where
  net := fun _ => .resp ⟨200, true, false, true, none⟩

/-- Downloader environment that answers every GET with a 200 PDF
response whose body stream fails midway. -/
def envStreamFail : DlEnv where
  net := fun _ => .resp ⟨200, true, false, false, none⟩

/-- The PDF location the Unpaywall JSON of envRedirect points at. -/
def redirectPdfUrl : String := "https://oa.example/p.pdf"

/-- Downloader environment for paperBoth in which the Unpaywall
candidate redirects to a PDF URL that then answers 404, while the PMC
candidate would serve a clean PDF. Response fields are status,
content-type-pdf, content-type-json, stream-ok, json-parse. -/
def envRedirect : DlEnv where
  net := fun url =>
    if url = unpaywallUrl "10.1/x" then
      .resp ⟨200, false, true, true, some ⟨true, some ⟨some redirectPdfUrl⟩⟩⟩
    else if url = redirectPdfUrl then
      .resp ⟨404, false, false, true, none⟩
    else if url = pmcPdfUrl "77" then
      .resp ⟨200, true, false, true, none⟩
    else .netError

/-! ## Helper lemmas -/

theorem append_clause_ne (keywords : String) (a b : Int) :
    keywords ++ dateRangeClause a b ≠ keywords := by
  intro h
  have hlen := congrArg String.length h
  rw [String.length_append] at hlen
  have hpos : 0 < (dateRangeClause a b).length := by
    unfold dateRangeClause
    rw [String.length_append, String.length_append, String.length_append,
      String.length_append]
    have h5 : (" AND ").length = 5 := rfl
    omega
  omega

/-! ## Claim C2: date-range clause construction -/

/-- C2 counterexample: with yearFrom = 0 and yearTo = 2020 both
provided, the search expression is the bare keyword expression — no
date-range clause is conjoined — because the source tests Python
truthiness, not presence. -/
theorem searchTerm_zero_year_counterexample :
    (some (0 : Int)).isSome = true ∧ (some (2020 : Int)).isSome = true ∧
    buildSearchTerm "cancer" (some 0) (some 2020) = "cancer" :=
  ⟨rfl, rfl, rfl⟩

/-- C2 as amended: the search expression carries the date-range
clause, conjoined with AND to the keyword expression, if and only if
both bounds are provided and nonzero (Python truthiness); this is
deterministic for every combination of bounds, including inverted and
equal bounds, and otherwise the expression is the bare keyword
expression. -/
theorem searchTerm_range_clause_characterization (kw : String) (sy ey : Option Int) :
    (buildSearchTerm kw sy ey ≠ kw ↔ intTruthy sy = true ∧ intTruthy ey = true) ∧
    (intTruthy sy = true → intTruthy ey = true →
      buildSearchTerm kw sy ey = kw ++ dateRangeClause (sy.getD 0) (ey.getD 0)) := by
  by_cases h1 : intTruthy sy = true
  · by_cases h2 : intTruthy ey = true
    · refine ⟨?_, fun _ _ => by simp [buildSearchTerm, h1, h2]⟩
      simp only [buildSearchTerm, h1, h2, Bool.and_self, if_pos]
      simp only [h1, h2, and_self, iff_true]
      exact append_clause_ne kw _ _
    · rw [Bool.not_eq_true] at h2
      constructor
      · simp [buildSearchTerm, h1, h2]
      · intro _ h2'
        rw [h2] at h2'
        exact absurd h2' (by simp)
  · rw [Bool.not_eq_true] at h1
    constructor
    · simp [buildSearchTerm, h1]
    · intro h1' _
      rw [h1] at h1'
      exact absurd h1' (by simp)

/-- C2 witness: with inverted nonzero bounds 2020 and 2019 the clause
is conjoined, instantiating the amended characterization. -/
theorem searchTerm_range_clause_characterization_witness :
    buildSearchTerm "x" (some 2020) (some 2019) = "x" ++ dateRangeClause 2020 2019 :=
  (searchTerm_range_clause_characterization "x" (some 2020) (some 2019)).2 (by decide)
    (by decide)

/-! ## Claim C1: search failure handling -/

/-- C1 counterexample: the detail-fetch phase never inspects the HTTP
status, so a non-200 (here 500) detail response with a well-formed
body yields a non-empty result, not the empty sequence the claim
requires for a network failure in that phase. -/
theorem search_phase2_status_counterexample :
    envPhase2Status.phase1 "kw" 10 = .resp 200 (.parsed ["1"]) ∧
    envPhase2Status.phase2 ["1"] =
      .resp 500 (.parsed [.good (some "T") [] none none (some "1") none]) ∧
    searchPapers envPhase2Status "kw" none none 10 ≠ [] := by
  refine ⟨rfl, rfl, ?_⟩
  decide

/-- C1 as amended: search never raises; a connection error or XML
parse failure in either phase, and a non-200 status in the
identifier-resolution phase, each yield the empty sequence. (In the
detail-fetch phase the status is not inspected, so a non-200 detail
response is processed like any other.) -/
theorem search_failure_yields_empty (env : SearchEnv) (kw : String)
    (sy ey : Option Int) (mr : Nat) :
    (env.phase1 (buildSearchTerm kw sy ey) mr = .netError →
      searchPapers env kw sy ey mr = []) ∧
    (∀ s b, env.phase1 (buildSearchTerm kw sy ey) mr = .resp s b → s ≠ 200 →
      searchPapers env kw sy ey mr = []) ∧
    (env.phase1 (buildSearchTerm kw sy ey) mr = .resp 200 .malformed →
      searchPapers env kw sy ey mr = []) ∧
    (∀ ids, env.phase1 (buildSearchTerm kw sy ey) mr = .resp 200 (.parsed ids) →
      env.phase2 ids = .netError → searchPapers env kw sy ey mr = []) ∧
    (∀ ids s, env.phase1 (buildSearchTerm kw sy ey) mr = .resp 200 (.parsed ids) →
      env.phase2 ids = .resp s .malformed → searchPapers env kw sy ey mr = []) := by
  refine ⟨?_, ?_, ?_, ?_, ?_⟩
  · intro h
    simp [searchPapers, h]
  · intro s b h hs
    simp [searchPapers, h, hs]
  · intro h
    simp [searchPapers, h]
  · intro ids h h2
    by_cases hids : ids = []
    · simp [searchPapers, h, hids]
    · simp [searchPapers, h, hids, fetchPaperDetails, h2]
  · intro ids s h h2
    by_cases hids : ids = []
    · simp [searchPapers, h, hids]
    · simp [searchPapers, h, hids, fetchPaperDetails, h2]

/-- C1 witness: each failure mode of the amended theorem, exhibited
on concrete environments, yields the empty sequence. -/
theorem search_failure_yields_empty_witness :
    searchPapers ⟨fun _ _ => .netError, fun _ => .netError⟩ "k" none none 5 = [] ∧
    searchPapers ⟨fun _ _ => .resp 404 (.parsed ["1"]), fun _ => .netError⟩
      "k" none none 5 = [] ∧
    searchPapers ⟨fun _ _ => .resp 200 .malformed, fun _ => .netError⟩
      "k" none none 5 = [] ∧
    searchPapers ⟨fun _ _ => .resp 200 (.parsed ["1"]), fun _ => .netError⟩
      "k" none none 5 = [] ∧
    searchPapers ⟨fun _ _ => .resp 200 (.parsed ["1"]), fun _ => .resp 200 .malformed⟩
      "k" none none 5 = [] :=
  ⟨(search_failure_yields_empty _ "k" none none 5).1 rfl,
    (search_failure_yields_empty _ "k" none none 5).2.1 404 (.parsed ["1"]) rfl
      (by decide),
    (search_failure_yields_empty _ "k" none none 5).2.2.1 rfl,
    (search_failure_yields_empty _ "k" none none 5).2.2.2.1 ["1"] rfl rfl,
    (search_failure_yields_empty _ "k" none none 5).2.2.2.2 ["1"] 200 rfl rfl⟩

/-! ## Claim C6: malformed batch entries are skipped -/

/-- C6: a batch detail response with one malformed entry between two
well-formed ones yields exactly the two well-formed PaperRecords, in
response order. -/
theorem search_skips_malformed_entry (env : SearchEnv) (ids : List String)
    (s : Nat) (x m y : ArticleXml) (r1 r2 : PaperRecord)
    (hx : extractPaperInfo x = some r1) (hm : extractPaperInfo m = none)
    (hy : extractPaperInfo y = some r2)
    (hresp : env.phase2 ids = .resp s (.parsed [x, m, y])) :
    fetchPaperDetails env ids = [r1, r2] := by
  simp [fetchPaperDetails, hresp, hx, hm, hy]

/-- C6 witness: a concrete batch with a malformed middle entry yields
the two well-formed records in order. -/
theorem search_skips_malformed_entry_witness :
    fetchPaperDetails
      ⟨fun _ _ => .netError,
        fun _ => .resp 200 (.parsed
          [.good (some "A") [] none none (some "1") none, .bad,
            .good (some "B") [] none none (some "2") none])⟩
      ["1", "2", "3"] =
      [{ title := "A", authors := [], abstract := "No abstract available",
          doi := none, pmid := some "1", year := "Unknown",
          pdf_url := some (pmcPdfUrl "1") },
        { title := "B", authors := [], abstract := "No abstract available",
          doi := none, pmid := some "2", year := "Unknown",
          pdf_url := some (pmcPdfUrl "2") }] :=
  search_skips_malformed_entry _ ["1", "2", "3"] 200
    (.good (some "A") [] none none (some "1") none) .bad
    (.good (some "B") [] none none (some "2") none) _ _ (by decide) rfl (by decide) rfl

/-! ## Downloader helper lemmas -/

theorem mem_addFile (fs : List String) (f : String) : f ∈ addFile fs f := by
  unfold addFile
  split
  · assumption
  · exact List.mem_cons_self f fs

theorem addFile_idem (fs : List String) (f : String) :
    addFile (addFile fs f) f = addFile fs f := by
  have h := mem_addFile fs f
  show (if f ∈ addFile fs f then addFile fs f else f :: addFile fs f) = addFile fs f
  simp [h]

theorem tryUrls_nil (env : DlEnv) (fp : String) (fs : List String) :
    tryUrls env fp fs [] = (false, fs, []) := rfl

theorem tryUrls_netError (env : DlEnv) (fp : String) (fs : List String)
    (url : String) (rest : List String) (h : env.net url = .netError) :
    tryUrls env fp fs (url :: rest) = prependReq url (tryUrls env fp fs rest) := by
  rw [tryUrls, h]

theorem tryUrls_pdf_ok (env : DlEnv) (fp : String) (fs : List String)
    (url : String) (rest : List String) (r : DlResp) (h : env.net url = .resp r)
    (hs : r.status = 200) (hpdf : r.ctPdf = true) (hst : r.streamOk = true) :
    tryUrls env fp fs (url :: rest) = (true, addFile fs fp, [url]) := by
  rw [tryUrls, h]
  simp [hs, hpdf, hst]

theorem tryUrls_pdf_streamFail (env : DlEnv) (fp : String) (fs : List String)
    (url : String) (rest : List String) (r : DlResp) (h : env.net url = .resp r)
    (hs : r.status = 200) (hpdf : r.ctPdf = true) (hst : r.streamOk = false) :
    tryUrls env fp fs (url :: rest) =
      prependReq url (tryUrls env fp (addFile fs fp) rest) := by
  rw [tryUrls, h]
  simp [hs, hpdf, hst]

theorem tryUrls_json_redirect (env : DlEnv) (fp : String) (fs : List String)
    (url : String) (rest : List String) (r : DlResp) (u : String)
    (h : env.net url = .resp r) (hs : r.status = 200) (hpdf : r.ctPdf = false)
    (hjson : r.ctJson = true) (hu : jsonPdfUrl r.jsonParse = some u) :
    tryUrls env fp fs (url :: rest) =
      prependReq url (downloadPdfDirect env u fp fs) := by
  rw [tryUrls, h]
  simp [hs, hpdf, hjson, hu]

theorem tryUrls_skip (env : DlEnv) (fp : String) (fs : List String)
    (url : String) (rest : List String)
    (h : candidateSkips (env.net url) = true) :
    tryUrls env fp fs (url :: rest) = prependReq url (tryUrls env fp fs rest) := by
  cases hg : env.net url with
  | netError => rw [tryUrls, hg]
  | resp r =>
    rw [tryUrls, hg]
    by_cases hs : r.status = 200
    · by_cases hpdf : r.ctPdf = true
      · exfalso
        simp [candidateSkips, hg, hs, hpdf] at h
      · by_cases hj : r.ctJson = true
        · cases hu : jsonPdfUrl r.jsonParse with
          | none => simp [hs, hpdf, hj, hu]
          | some u =>
            exfalso
            simp [candidateSkips, hg, hs, hpdf, hj, hu] at h
        · simp [hs, hpdf, hj]
    · simp [hs]

theorem downloadPdfDirect_files (env : DlEnv) (u fp : String) (fs : List String) :
    ((downloadPdfDirect env u fp fs).2.1 = fs ∨
      (downloadPdfDirect env u fp fs).2.1 = addFile fs fp) ∧
    ((downloadPdfDirect env u fp fs).1 = true →
      (downloadPdfDirect env u fp fs).2.1 = addFile fs fp) := by
  unfold downloadPdfDirect
  cases env.net u with
  | netError => simp
  | resp r =>
    by_cases hs : r.status = 200
    · by_cases hst : r.streamOk = true
      · simp [hs, hst]
      · simp [hs, hst]
    · simp [hs]

theorem tryUrls_files (env : DlEnv) (fp : String) (urls : List String) :
    ∀ fs : List String,
      ((tryUrls env fp fs urls).2.1 = fs ∨
        (tryUrls env fp fs urls).2.1 = addFile fs fp) ∧
      ((tryUrls env fp fs urls).1 = true →
        (tryUrls env fp fs urls).2.1 = addFile fs fp) := by
  induction urls with
  | nil =>
    intro fs
    simp [tryUrls_nil]
  | cons url rest ih =>
    intro fs
    cases hg : env.net url with
    | netError =>
      rw [tryUrls_netError env fp fs url rest hg]
      simpa [prependReq] using ih fs
    | resp r =>
      by_cases hs : r.status = 200
      · by_cases hpdf : r.ctPdf = true
        · by_cases hst : r.streamOk = true
          · rw [tryUrls_pdf_ok env fp fs url rest r hg hs hpdf hst]
            simp
          · rw [Bool.not_eq_true] at hst
            rw [tryUrls_pdf_streamFail env fp fs url rest r hg hs hpdf hst]
            have hrec := ih (addFile fs fp)
            constructor
            · rcases hrec.1 with hcase | hcase
              · right
                simpa [prependReq] using hcase
              · right
                rw [addFile_idem] at hcase
                simpa [prependReq] using hcase
            · intro hsucc
              rw [prependReq] at hsucc ⊢
              have := hrec.2 hsucc
              rw [addFile_idem] at this
              exact this
        · rw [Bool.not_eq_true] at hpdf
          by_cases hj : r.ctJson = true
          · cases hu : jsonPdfUrl r.jsonParse with
            | none =>
              have hskip : candidateSkips (env.net url) = true := by
                simp [candidateSkips, hg, hs, hpdf, hj, hu]
              rw [tryUrls_skip env fp fs url rest hskip]
              simpa [prependReq] using ih fs
            | some u =>
              rw [tryUrls_json_redirect env fp fs url rest r u hg hs hpdf hj hu]
              have hdl := downloadPdfDirect_files env u fp fs
              constructor
              · simpa [prependReq] using hdl.1
              · intro hsucc
                rw [prependReq] at hsucc ⊢
                exact hdl.2 hsucc
          · rw [Bool.not_eq_true] at hj
            have hskip : candidateSkips (env.net url) = true := by
              simp [candidateSkips, hg, hs, hpdf, hj]
            rw [tryUrls_skip env fp fs url rest hskip]
            simpa [prependReq] using ih fs
      · have hskip : candidateSkips (env.net url) = true := by
          simp [candidateSkips, hg, hs]
        rw [tryUrls_skip env fp fs url rest hskip]
        simpa [prependReq] using ih fs

/-! ## Claim C3: candidate ordering and fallback -/

/-- C3 counterexample: for a paper with both identifiers, the
Unpaywall candidate reports an open-access PDF URL whose direct
download then fails (404); the acquire operation returns failure
immediately — the PMC candidate, which would have succeeded, is never
tried, so failure is not returned "only after all candidates have
failed". -/
theorem acquire_json_redirect_counterexample :
    tryDownloadPaper envRedirect paperBoth [] =
      (false, [], [unpaywallUrl "10.1/x", redirectPdfUrl]) ∧
    tryUrls envRedirect (deriveFilename paperBoth) [] [pmcPdfUrl "77"] =
      (true, [deriveFilename paperBoth], [pmcPdfUrl "77"]) := by
  constructor
  · decide
  · decide

/-- C3 as amended: candidates are tried in order, DOI-keyed Unpaywall
first, then the PMID-keyed PMC URL; a direct-PDF success at the first
candidate wins without trying the rest; a skippable failure (network
error, non-200, unexpected content type, or JSON without a usable PDF
location) proceeds to the next candidate without raising, and failure
is returned after all candidates fail this way — except that when the
Unpaywall JSON reports a PDF location, the outcome of downloading
that location is returned immediately, without trying the remaining
candidate even if that download fails. -/
theorem acquire_candidate_order (env : DlEnv) (paper : PaperRecord)
    (fs : List String) (d p : String) (hdoi : paper.doi = some d) (hd : d ≠ "")
    (hpmid : paper.pmid = some p) (hp : p ≠ "")
    (hnew : deriveFilename paper ∉ fs) :
    (∀ r, env.net (unpaywallUrl d) = .resp r → r.status = 200 → r.ctPdf = true →
      r.streamOk = true →
      tryDownloadPaper env paper fs =
        (true, addFile fs (deriveFilename paper), [unpaywallUrl d])) ∧
    (candidateSkips (env.net (unpaywallUrl d)) = true →
      tryDownloadPaper env paper fs =
        prependReq (unpaywallUrl d)
          (tryUrls env (deriveFilename paper) fs [pmcPdfUrl p])) ∧
    (∀ u, respJsonPdf (env.net (unpaywallUrl d)) = some u →
      tryDownloadPaper env paper fs =
        prependReq (unpaywallUrl d)
          (downloadPdfDirect env u (deriveFilename paper) fs)) ∧
    (candidateSkips (env.net (unpaywallUrl d)) = true →
      candidateSkips (env.net (pmcPdfUrl p)) = true →
      tryDownloadPaper env paper fs = (false, fs, [unpaywallUrl d, pmcPdfUrl p])) := by
  have hurls : candidateUrls paper = [unpaywallUrl d, pmcPdfUrl p] := by
    simp [candidateUrls, hdoi, hpmid, strTruthy, hd, hp]
  have htd : tryDownloadPaper env paper fs =
      tryUrls env (deriveFilename paper) fs [unpaywallUrl d, pmcPdfUrl p] := by
    rw [tryDownloadPaper, if_neg hnew, hurls]
  refine ⟨?_, ?_, ?_, ?_⟩
  · intro r hg hs hpdf hst
    rw [htd]
    exact tryUrls_pdf_ok env _ fs _ _ r hg hs hpdf hst
  · intro hskip
    rw [htd]
    exact tryUrls_skip env _ fs _ _ hskip
  · intro u hu
    cases hg : env.net (unpaywallUrl d) with
    | netError =>
      rw [hg] at hu
      simp [respJsonPdf] at hu
    | resp r =>
      rw [hg] at hu
      simp only [respJsonPdf] at hu
      by_cases hc : r.status = 200 ∧ r.ctPdf = false ∧ r.ctJson = true
      · rw [if_pos hc] at hu
        obtain ⟨hs, hpdf, hj⟩ := hc
        rw [htd]
        exact tryUrls_json_redirect env _ fs _ _ r u hg hs hpdf hj hu
      · rw [if_neg hc] at hu
        cases hu
  · intro hskip1 hskip2
    rw [htd, tryUrls_skip env _ fs _ _ hskip1, tryUrls_skip env _ fs _ _ hskip2,
      tryUrls_nil]
    rfl

/-- C3 witness: the amended theorem instantiated on concrete
environments — a first-candidate direct-PDF success wins with a
single request; two skippable failures yield overall failure with
both candidates tried in order; the Unpaywall redirect outcome is
returned immediately. -/
theorem acquire_candidate_order_witness :
    tryDownloadPaper envAllPdf paperBoth [] =
      (true, addFile [] (deriveFilename paperBoth), [unpaywallUrl "10.1/x"]) ∧
    tryDownloadPaper ⟨fun _ => .resp ⟨404, false, false, true, none⟩⟩ paperBoth [] =
      (false, [], [unpaywallUrl "10.1/x", pmcPdfUrl "77"]) ∧
    tryDownloadPaper envRedirect paperBoth [] =
      prependReq (unpaywallUrl "10.1/x")
        (downloadPdfDirect envRedirect redirectPdfUrl (deriveFilename paperBoth) []) :=
  ⟨(acquire_candidate_order envAllPdf paperBoth [] "10.1/x" "77" rfl (by decide) rfl
      (by decide) (by simp)).1 ⟨200, true, false, true, none⟩ rfl rfl rfl rfl,
    (acquire_candidate_order ⟨fun _ => .resp ⟨404, false, false, true, none⟩⟩ paperBoth
      [] "10.1/x" "77" rfl (by decide) rfl (by decide) (by simp)).2.2.2 rfl rfl,
    (acquire_candidate_order envRedirect paperBoth [] "10.1/x" "77" rfl (by decide)
      rfl (by decide) (by simp)).2.2.1 redirectPdfUrl (by decide)⟩

/-! ## Claim C4: no identifiers means failure with no network calls -/

/-- C4: a paper with neither DOI nor PMID whose target file does not
already exist yields failure, an unchanged directory, and zero
network requests. -/
theorem acquire_no_identifiers_fails (env : DlEnv) (paper : PaperRecord)
    (fs : List String) (hdoi : paper.doi = none) (hpmid : paper.pmid = none)
    (hnew : deriveFilename paper ∉ fs) :
    tryDownloadPaper env paper fs = (false, fs, []) := by
  simp [tryDownloadPaper, hnew, candidateUrls, hdoi, hpmid, strTruthy, tryUrls_nil]

/-- C4 witness: the identifier-free paper fails with no requests in a
concrete environment. -/
theorem acquire_no_identifiers_fails_witness :
    tryDownloadPaper ⟨fun _ => .netError⟩ paperNoIds [] = (false, [], []) :=
  acquire_no_identifiers_fails ⟨fun _ => .netError⟩ paperNoIds [] rfl rfl (by simp)

/-! ## Claim C5: idempotence on the target path -/

/-- C5: if the target file already exists the call returns success
with no network request; after any successful call the file is
present, so a second call on the resulting directory returns success
with zero requests; and a successful first call on a directory
without the file adds exactly that one file. -/
theorem acquire_idempotent (env : DlEnv) (paper : PaperRecord) (fs : List String) :
    (deriveFilename paper ∈ fs → tryDownloadPaper env paper fs = (true, fs, [])) ∧
    (∀ s fs1 reqs, tryDownloadPaper env paper fs = (s, fs1, reqs) → s = true →
      tryDownloadPaper env paper fs1 = (true, fs1, [])) ∧
    (deriveFilename paper ∉ fs →
      ∀ fs1 reqs, tryDownloadPaper env paper fs = (true, fs1, reqs) →
        fs1 = deriveFilename paper :: fs) := by
  refine ⟨fun h => by simp [tryDownloadPaper, h], ?_, ?_⟩
  · intro s fs1 reqs heq hs
    subst hs
    by_cases h : deriveFilename paper ∈ fs
    · rw [tryDownloadPaper, if_pos h] at heq
      simp only [Prod.mk.injEq] at heq
      obtain ⟨-, hfs, -⟩ := heq
      rw [← hfs]
      simp [tryDownloadPaper, h]
    · rw [tryDownloadPaper, if_neg h] at heq
      have hsucc : (tryUrls env (deriveFilename paper) fs (candidateUrls paper)).1
          = true := by rw [heq]
      have hfs1 : fs1 = addFile fs (deriveFilename paper) := by
        have hcomp :=
          (tryUrls_files env (deriveFilename paper) (candidateUrls paper) fs).2 hsucc
        rw [heq] at hcomp
        simpa using hcomp
      have hmem : deriveFilename paper ∈ fs1 := by
        rw [hfs1]
        exact mem_addFile fs _
      rw [tryDownloadPaper, if_pos hmem]
  · intro h fs1 reqs heq
    rw [tryDownloadPaper, if_neg h] at heq
    have hsucc : (tryUrls env (deriveFilename paper) fs (candidateUrls paper)).1
        = true := by rw [heq]
    have hfs1 : fs1 = addFile fs (deriveFilename paper) := by
      have hcomp :=
        (tryUrls_files env (deriveFilename paper) (candidateUrls paper) fs).2 hsucc
      rw [heq] at hcomp
      simpa using hcomp
    rw [hfs1, addFile, if_neg h]

/-- C5 witness: on a concrete environment serving the PDF, the first
call downloads to the target path with one request, and the second
call short-circuits with success and zero requests. -/
theorem acquire_idempotent_witness :
    tryDownloadPaper envAllPdf paperPmidOnly [] =
      (true, [deriveFilename paperPmidOnly], [pmcPdfUrl "9"]) ∧
    tryDownloadPaper envAllPdf paperPmidOnly [deriveFilename paperPmidOnly] =
      (true, [deriveFilename paperPmidOnly], []) ∧
    [deriveFilename paperPmidOnly] = deriveFilename paperPmidOnly :: [] :=
  ⟨by decide,
    (acquire_idempotent envAllPdf paperPmidOnly []).2.1 true
      [deriveFilename paperPmidOnly] [pmcPdfUrl "9"] (by decide) rfl,
    (acquire_idempotent envAllPdf paperPmidOnly []).2.2 (by simp)
      [deriveFilename paperPmidOnly] [pmcPdfUrl "9"] (by decide)⟩

/-! ## Claim C7: files left behind on failure -/

/-- C7 counterexample: the single candidate answers 200 with a PDF
content type, so the target file is opened for writing, and the body
stream then fails; the call returns failure yet a (partial) file now
exists at the target path that did not exist before. -/
theorem acquire_partial_file_counterexample :
    tryDownloadPaper envStreamFail paperPmidOnly [] =
      (false, [deriveFilename paperPmidOnly], [pmcPdfUrl "9"]) ∧
    deriveFilename paperPmidOnly ∉ ([] : List String) := by
  constructor
  · decide
  · simp

/-- C7 as amended: a failed acquisition leaves the download directory
unchanged except possibly for the target path itself, which may hold
a partially written file when some candidate reached the
body-streaming stage; no file at any other path is ever created. -/
theorem acquire_failure_leaves_at_most_target (env : DlEnv) (paper : PaperRecord)
    (fs : List String) (s : Bool) (fs1 reqs : List String)
    (heq : tryDownloadPaper env paper fs = (s, fs1, reqs)) (_hfail : s = false) :
    fs1 = fs ∨ fs1 = addFile fs (deriveFilename paper) := by
  by_cases h : deriveFilename paper ∈ fs
  · rw [tryDownloadPaper, if_pos h] at heq
    simp only [Prod.mk.injEq] at heq
    left
    exact heq.2.1.symm
  · rw [tryDownloadPaper, if_neg h] at heq
    have hcomp := (tryUrls_files env (deriveFilename paper) (candidateUrls paper) fs).1
    rw [heq] at hcomp
    simpa using hcomp

/-- C7 witness: the amended theorem instantiated on the stream-failure
environment, where the second disjunct (the target file appeared) is
the one that holds. -/
theorem acquire_failure_leaves_at_most_target_witness :
    [deriveFilename paperPmidOnly] = ([] : List String) ∨
    [deriveFilename paperPmidOnly] = addFile [] (deriveFilename paperPmidOnly) :=
  acquire_failure_leaves_at_most_target envStreamFail paperPmidOnly [] false
    [deriveFilename paperPmidOnly] [pmcPdfUrl "9"] (by decide) rfl

/-! ## Claim C8: target filename derivation -/

/-- C8 counterexample: the source keeps underscores in the sanitized
title (the regex keeps every word character), while the claimed
character set removes them; and an empty-string externalId is
replaced by "unknown" by the source's truthiness test, while the
claim replaces only an absent one. -/
theorem filename_derivation_counterexample :
    deriveFilename paperUnderscore = "1_a_b.pdf" ∧
    specFilenameClaim paperUnderscore = "1_ab.pdf" ∧
    deriveFilename paperUnderscore ≠ specFilenameClaim paperUnderscore ∧
    deriveFilename paperEmptyPmid = "unknown_t.pdf" ∧
    specFilenameClaim paperEmptyPmid = "_t.pdf" ∧
    deriveFilename paperEmptyPmid ≠ specFilenameClaim paperEmptyPmid := by
  refine ⟨by decide, by decide, by decide, by decide, by decide, by decide⟩

/-- C8 as amended: the derived filename is the title with every
character outside letters, digits, underscore, whitespace and hyphen
removed, truncated to 50 characters, prefixed by the externalId (or
"unknown" when it is absent or empty) and an underscore, suffixed
".pdf". -/
theorem filename_matches_amended_spec (p : PaperRecord) :
    deriveFilename p = specFilenameAmended p := rfl

/-! ## Claim C9: results round-trip -/

theorem asOptStr_optStrJson (o : Option String) :
    asOptStr (optStrJson o) = some o := by
  cases o <;> rfl

theorem mapM_asStr_map_str (xs : List String) :
    optionMapM asStr (xs.map Json.str) = some xs := by
  induction xs with
  | nil => rfl
  | cons x xs ih => simp [optionMapM, asStr, ih]

theorem decodePaper_encodePaper (p : PaperRecord) :
    decodePaper (encodePaper p) = some p := by
  cases p with
  | mk t as ab d pm y u =>
    simp [encodePaper, decodePaper, jLookup, List.find?, asStr, asStrList,
      asOptStr_optStrJson, mapM_asStr_map_str]

theorem mapM_decodePaper_encodePaper (papers : List PaperRecord) :
    optionMapM decodePaper (papers.map encodePaper) = some papers := by
  induction papers with
  | nil => rfl
  | cons p ps ih => simp [optionMapM, decodePaper_encodePaper, ih]

/-- C9: saving the results for a project and then loading them
returns exactly the list that was passed in, element for element and
in order, for every prior state of the store (any prior results
document for the project is overwritten). -/
theorem save_load_roundtrip (store : List (String × Json)) (projectId : String)
    (papers : List PaperRecord) :
    loadResults (saveResults store projectId papers) projectId = some papers := by
  have hfind : List.find? (fun e => e.1 = projectId)
      ((projectId, Json.arr (papers.map encodePaper)) ::
        store.filter (fun e => e.1 ≠ projectId)) =
      some (projectId, Json.arr (papers.map encodePaper)) :=
    List.find?_cons_of_pos _ (by simp)
  rw [loadResults, saveResults, hfind]
  simp [mapM_decodePaper_encodePaper]

/-! ## Claim C10: the download flow attempts only papers with a DOI -/

/-- C10: in the download flow, a loaded record without a doi is
tallied as failed with zero acquisition attempts and zero network
requests — even when its PMID is present — and processing continues
with the remaining records unchanged. -/
theorem download_skips_paper_without_doi (env : DlEnv) (fs : List String)
    (p : PaperRecord) (rest : List PaperRecord) (hdoi : p.doi = none) :
    downloadProjectLoop env fs (p :: rest) =
      ((downloadProjectLoop env fs rest).1,
        (downloadProjectLoop env fs rest).2.1 + 1,
        (downloadProjectLoop env fs rest).2.2.1,
        (downloadProjectLoop env fs rest).2.2.2) ∧
    downloadProjectLoop env fs [p] = (0, 1, fs, []) := by
  have htr : strTruthy p.doi = false := by rw [hdoi]; rfl
  constructor
  · rw [downloadProjectLoop, htr]
    rcases hres : downloadProjectLoop env fs rest with ⟨d, f, fs2, reqs⟩
    simp [hres]
  · rw [downloadProjectLoop, htr]
    simp [downloadProjectLoop]

/-- C10 witness: a concrete record with a PMID but no doi is counted
failed with no requests. -/
theorem download_skips_paper_without_doi_witness :
    downloadProjectLoop ⟨fun _ => .netError⟩ [] [paperPmidOnly] = (0, 1, [], []) :=
  (download_skips_paper_without_doi ⟨fun _ => .netError⟩ [] paperPmidOnly [] rfl).2

end ResearchBot
